import Mathlib

/-!
Verification development for a tariff-synchronization pipeline
(remote fetch with retry, normalization, idempotent upsert, sorted
read-back, fan-out export, hourly scheduler, in-memory metrics).

The definitions below are a shallow embedding of the TypeScript
sources: `src/utils/errors.ts`, `src/utils/validators.ts`,
`src/services/wbApi.ts`, `src/repositories/tariffRepository.ts`,
`src/services/googleSheets.ts`, `src/services/tariffSync.ts`,
`src/services/scheduler.ts` and `src/utils/metrics.ts`.
Asynchronous effects (HTTP calls, database statements, per-destination
writes) are parameterized by outcome functions; machine-level details
(timers, logging transport) are reflected only where a claim needs
them (delay lists, skip counters, warning flags).
-/

-- Equality of settled results is decidable (used to evaluate the
-- embedding on concrete inputs).
deriving instance DecidableEq for Except

/-- `errors.ts`: every custom error carries a message and a numeric
status code.  Subclasses only prefix the message and fix the code. -/
structure AppError where
  message : String
  statusCode : Nat
deriving Repr, DecidableEq

/-- `class WBApiError extends AppError`: prefixes the message. -/
def mkWBApiError (msg : String) (statusCode : Nat) : AppError :=
  ⟨"WB API Error: " ++ msg, statusCode⟩

/-- `class DatabaseError extends AppError`: prefix, fixed code 500. -/
def mkDatabaseError (msg : String) : AppError :=
  ⟨"Database Error: " ++ msg, 500⟩

/-- `class GoogleSheetsError extends AppError`: prefix, fixed code 500. -/
def mkGoogleSheetsError (msg : String) : AppError :=
  ⟨"Google Sheets Error: " ++ msg, 500⟩

/-- `class ValidationError extends AppError`: prefix, fixed code 400. -/
def mkValidationError (msg : String) : AppError :=
  ⟨"Validation Error: " ++ msg, 400⟩

/-! ### Constants (`src/constants/config.ts`) -/

def API_CONFIG_MAX_RETRIES : Nat := 3
def API_CONFIG_RETRY_DELAY : Nat := 1000
def SHEETS_CONFIG_MAX_RETRIES : Nat := 3
def SHEETS_CONFIG_RETRY_DELAY : Nat := 2000
def VALIDATION_MAX_WAREHOUSE_NAME_LENGTH : Nat := 255
def VALIDATION_MAX_GEO_NAME_LENGTH : Nat := 255

/-! ### JavaScript string primitives

`trim()` removes whitespace from both ends; `substring(0, n)` keeps
the first `n` units.  (Modelled over the character list so that they
evaluate by kernel reduction.) -/

def jsTrim (s : String) : String :=
  ⟨((s.toList.dropWhile Char.isWhitespace).reverse.dropWhile
      Char.isWhitespace).reverse⟩

def jsSubstringTo (s : String) (n : Nat) : String :=
  ⟨s.toList.take n⟩

/-! ### Validators (`src/utils/validators.ts`) -/

/-- The regex `^\d{4}-\d{2}-\d{2}$` from `VALIDATION.DATE_FORMAT`. -/
def dateFormatOk (s : String) : Bool :=
  match s.toList with
  | [y1, y2, y3, y4, '-', m1, m2, '-', d1, d2] =>
      y1.isDigit && y2.isDigit && y3.isDigit && y4.isDigit &&
      m1.isDigit && m2.isDigit && d1.isDigit && d2.isDigit
  | _ => false

/-- Gregorian leap-year rule, used by the `new Date(date)` validity
check that `validateDate` performs after the format check. -/
def isLeapYear (y : Nat) : Bool :=
  (y % 4 = 0 && y % 100 ≠ 0) || y % 400 = 0

def daysInMonth (y m : Nat) : Nat :=
  if m = 2 then (if isLeapYear y then 29 else 28)
  else if m = 4 || m = 6 || m = 9 || m = 11 then 30
  else 31

def digitVal (c : Char) : Nat := c.toNat - 48

/-- Numeric value of a digit list (most significant first). -/
def digitsVal (ds : List Char) : Nat :=
  ds.foldl (fun acc c => acc * 10 + digitVal c) 0

/-- Models `!isNaN(new Date(date).getTime())` for a string already in
`YYYY-MM-DD` shape: the month and day must be in calendar range. -/
def isRealDate (s : String) : Bool :=
  match s.toList with
  | [y1, y2, y3, y4, '-', m1, m2, '-', d1, d2] =>
      let y := digitsVal [y1, y2, y3, y4]
      let m := digitsVal [m1, m2]
      let d := digitsVal [d1, d2]
      1 ≤ m && m ≤ 12 && 1 ≤ d && d ≤ daysInMonth y m
  | _ => false

/-- `validateDate` from `validators.ts`. -/
def validateDate (date : String) : Except AppError Unit :=
  if date = "" then
    .error (mkValidationError "Date must be a non-empty string")
  else if !dateFormatOk date then
    .error (mkValidationError
      ("Invalid date format: " ++ date ++ ". Expected YYYY-MM-DD"))
  else if !isRealDate date then
    .error (mkValidationError ("Invalid date value: " ++ date))
  else
    .ok ()

/-- `validateSpreadsheetId` from `validators.ts`. -/
def validateSpreadsheetId (spreadsheetId : String) : Except AppError Unit :=
  if spreadsheetId = "" then
    .error (mkValidationError "Spreadsheet ID must be a non-empty string")
  else if (jsTrim spreadsheetId).length = 0 then
    .error (mkValidationError "Spreadsheet ID cannot be empty")
  else if spreadsheetId.length < 20 then
    .error (mkValidationError
      ("Spreadsheet ID seems too short: " ++ spreadsheetId))
  else
    .ok ()

/-! ### JavaScript numeric parsing

`parseCoefficient` calls `parseInt(value, 10)`: leading whitespace is
skipped, an optional sign is read, then the longest leading digit run
is converted; no digits means `NaN`. -/

def parseIntJS (s : String) : Option Int :=
  let cs := s.toList.dropWhile Char.isWhitespace
  let signAndRest : Int × List Char :=
    match cs with
    | '-' :: r => (-1, r)
    | '+' :: r => (1, r)
    | r => (1, r)
  let ds := signAndRest.2.takeWhile Char.isDigit
  if ds.isEmpty then none
  else some (signAndRest.1 * (digitsVal ds : Int))

/-! ### Raw and normalized record types (`src/types/tariffs.ts`) -/

/-- Raw tariff entry from the WB API (all fields are strings). -/
structure WBWarehouseTariff where
  warehouseName : String
  geoName : String
  boxDeliveryBase : String
  boxDeliveryLiter : String
  boxDeliveryCoefExpr : String
  boxDeliveryMarketplaceBase : String
  boxDeliveryMarketplaceLiter : String
  boxDeliveryMarketplaceCoefExpr : String
  boxStorageBase : String
  boxStorageLiter : String
  boxStorageCoefExpr : String
deriving Repr, DecidableEq

/-- Normalized tariff ready for database insertion (`BoxTariff`). -/
structure BoxTariff where
  date : String
  warehouse_name : String
  geo_name : Option String
  box_delivery_base : Option String
  box_delivery_liter : Option String
  box_delivery_coef : Option Int
  box_delivery_marketplace_base : Option String
  box_delivery_marketplace_liter : Option String
  box_delivery_marketplace_coef : Option Int
  box_storage_base : Option String
  box_storage_liter : Option String
  box_storage_coef : Option Int
deriving Repr, DecidableEq

/-! ### WBApiService (`src/services/wbApi.ts`) -/

/-- `parseValue`: `"-"` and the empty string (falsy) become `null`;
everything else is trimmed. -/
def parseValue (value : String) : Option String :=
  if value = "" || value = "-" then none else some (jsTrim value)

/-- `parseCoefficient`: `"-"` and the empty string become `null`; a
`parseInt` result of `NaN` is logged and becomes `null`. -/
def parseCoefficient (value : String) : Option Int :=
  if value = "" || value = "-" then none
  else
    match parseIntJS value with
    | none => none
    | some n => some n

/-- `validateAndTrim`: rejects empty / whitespace-only strings with a
`ValidationError`; truncates over-long strings to `maxLength`,
emitting a warning (second component `true` iff the warning branch
was taken). -/
def validateAndTrim (value fieldName : String) (maxLength : Nat) :
    Except AppError (String × Bool) :=
  if value = "" then
    .error (mkValidationError (fieldName ++ " must be a non-empty string"))
  else
    let trimmed := jsTrim value
    if trimmed.length = 0 then
      .error (mkValidationError
        (fieldName ++ " cannot be empty or whitespace only"))
    else if trimmed.length > maxLength then
      .ok (jsSubstringTo trimmed maxLength, true)
    else
      .ok (trimmed, false)

/-- One element of the `tariffs.map` body in `transformToDbFormat`.
A thrown `ValidationError` is re-thrown, aborting the whole map. -/
def transformOne (t : WBWarehouseTariff) (date : String) :
    Except AppError BoxTariff :=
  match validateAndTrim t.warehouseName "warehouseName"
      VALIDATION_MAX_WAREHOUSE_NAME_LENGTH with
  | .error e => .error e
  | .ok wn =>
  match (if t.geoName ≠ "" then
      (validateAndTrim t.geoName "geoName"
        VALIDATION_MAX_GEO_NAME_LENGTH).map (fun p => some p.1)
    else
      .ok none : Except AppError (Option String)) with
  | .error e => .error e
  | .ok geo =>
  .ok
    { date := date
      warehouse_name := wn.1
      geo_name := geo
      box_delivery_base := parseValue t.boxDeliveryBase
      box_delivery_liter := parseValue t.boxDeliveryLiter
      box_delivery_coef := parseCoefficient t.boxDeliveryCoefExpr
      box_delivery_marketplace_base := parseValue t.boxDeliveryMarketplaceBase
      box_delivery_marketplace_liter := parseValue t.boxDeliveryMarketplaceLiter
      box_delivery_marketplace_coef := parseCoefficient t.boxDeliveryMarketplaceCoefExpr
      box_storage_base := parseValue t.boxStorageBase
      box_storage_liter := parseValue t.boxStorageLiter
      box_storage_coef := parseCoefficient t.boxStorageCoefExpr }

/-- `transformToDbFormat`: maps `transformOne` over the batch; the
first thrown error aborts the whole call. -/
def transformToDbFormat (tariffs : List WBWarehouseTariff) (date : String) :
    Except AppError (List BoxTariff) :=
  tariffs.mapM (transformOne · date)

/-- The shared retry loop shape of `fetchBoxTariffs` and
`updateSpreadsheet`: attempts are numbered from 1; after a failed
attempt `n < maxRetries` the code sleeps `retryDelay * n`.  Returns
the outcome (`.error lastErr` after exhaustion, where `lastErr` is
`none` only if the loop body never ran) and the list of delays slept,
in order. -/
def retryGo (att : Nat → Except AppError α) (retryDelay : Nat) :
    Nat → Nat → Option AppError → List Nat →
    Except (Option AppError) α × List Nat
  | 0, _, lastErr, delays => (.error lastErr, delays.reverse)
  | remaining + 1, attemptNo, _, delays =>
    match att attemptNo with
    | .ok a => (.ok a, delays.reverse)
    | .error e =>
      if remaining = 0 then (.error (some e), delays.reverse)
      else retryGo att retryDelay remaining (attemptNo + 1) (some e)
        (retryDelay * attemptNo :: delays)

def retryAttempts (att : Nat → Except AppError α)
    (maxRetries retryDelay : Nat) : Except (Option AppError) α × List Nat :=
  retryGo att retryDelay maxRetries 1 none []

/-- `lastError?.message` — a null `lastError` renders as
`"undefined"` inside the template string. -/
def lastErrMsg : Option AppError → String
  | some e => e.message
  | none => "undefined"

/-- `fetchBoxTariffs`: validates the date, then retries the HTTP
attempt (abstracted as `att`, the result of `fetchWithTimeout` per
attempt number) up to `maxRetries` times; exhaustion throws a
`WBApiError` with status 503 wrapping the last message.  Also returns
the backoff delays slept. -/
def fetchBoxTariffs (date : String) (maxRetries retryDelay : Nat)
    (att : Nat → Except AppError (List WBWarehouseTariff)) :
    Except AppError (List WBWarehouseTariff) × List Nat :=
  match validateDate date with
  | .error e => (.error e, [])
  | .ok _ =>
    match retryAttempts att maxRetries retryDelay with
    | (.ok v, ds) => (.ok v, ds)
    | (.error lastErr, ds) =>
      (.error (mkWBApiError
        ("Failed to fetch tariffs after " ++ toString maxRetries ++
          " attempts: " ++ lastErrMsg lastErr) 503), ds)

/-! ### TariffRepository (`src/repositories/tariffRepository.ts`)

The `box_tariffs` table is a list of stored rows; the database is
otherwise abstracted by a per-statement failure function (`fails`)
standing for the driver: `none` means the chunked
`INSERT .. ON CONFLICT` statement succeeds, `some msg` means it throws
with that message.  Knex transaction semantics: on success the store
produced by all statements is committed; on any throw the transaction
is rolled back and the caller keeps the pre-call store. -/

/-- A committed row: the normalized tariff plus `updated_at`. -/
structure DbRow where
  date : String
  warehouse_name : String
  geo_name : Option String
  box_delivery_base : Option String
  box_delivery_liter : Option String
  box_delivery_coef : Option Int
  box_delivery_marketplace_base : Option String
  box_delivery_marketplace_liter : Option String
  box_delivery_marketplace_coef : Option Int
  box_storage_base : Option String
  box_storage_liter : Option String
  box_storage_coef : Option Int
  updated_at : Nat
deriving Repr, DecidableEq

/-- `tariffs.map((t) => ({...t, updated_at: now}))`. -/
def withTimestamp (t : BoxTariff) (now : Nat) : DbRow :=
  { date := t.date
    warehouse_name := t.warehouse_name
    geo_name := t.geo_name
    box_delivery_base := t.box_delivery_base
    box_delivery_liter := t.box_delivery_liter
    box_delivery_coef := t.box_delivery_coef
    box_delivery_marketplace_base := t.box_delivery_marketplace_base
    box_delivery_marketplace_liter := t.box_delivery_marketplace_liter
    box_delivery_marketplace_coef := t.box_delivery_marketplace_coef
    box_storage_base := t.box_storage_base
    box_storage_liter := t.box_storage_liter
    box_storage_coef := t.box_storage_coef
    updated_at := now }

/-- The `ON CONFLICT (date, warehouse_name)` uniqueness key. -/
def rowKey (r : DbRow) : String × String := (r.date, r.warehouse_name)

def tariffKey (t : BoxTariff) : String × String := (t.date, t.warehouse_name)

/-- One row of `INSERT .. ON CONFLICT (date, warehouse_name) DO UPDATE`:
the `.merge` clause overwrites every non-key column (including
`updated_at`) with the incoming `EXCLUDED` row. -/
def upsertRow (store : List DbRow) (r : DbRow) : List DbRow :=
  if store.any (fun q => decide (rowKey q = rowKey r)) then
    store.map (fun q => if rowKey q = rowKey r then r else q)
  else
    store ++ [r]

/-- A chunked multi-row statement applies its rows in order. -/
def applyChunk (store : List DbRow) (chunk : List DbRow) : List DbRow :=
  chunk.foldl upsertRow store

def DB_CHUNK_SIZE : Nat := 500

/-- `slice(i, i + chunkSize)` loop: split into chunks of 500.  The
fuel argument (instantiated with the list length) only forces
structural recursion; each step consumes at least one element. -/
def chunksOfAux (fuel : Nat) (l : List α) : List (List α) :=
  match fuel, l with
  | _, [] => []
  | 0, l => [l]
  | fuel + 1, x :: xs =>
    (x :: xs).take DB_CHUNK_SIZE :: chunksOfAux fuel ((x :: xs).drop DB_CHUNK_SIZE)

def chunksOf (l : List α) : List (List α) := chunksOfAux l.length l

/-- The `for` loop inside the transaction: each chunk statement either
throws (first failure wins) or updates the working state. -/
def runChunks (store : List DbRow) (chunks : List (List DbRow))
    (fails : List DbRow → Option String) : Except String (List DbRow) :=
  match chunks with
  | [] => .ok store
  | c :: rest =>
    match fails c with
    | some msg => .error msg
    | none => runChunks (applyChunk store c) rest fails

/-- `upsertTariffs`: empty input returns immediately; otherwise rows
get a fresh shared timestamp and are written chunk by chunk inside one
transaction; any failure rolls back and is re-thrown wrapped in a
`DatabaseError`. -/
def upsertTariffs (store : List DbRow) (tariffs : List BoxTariff)
    (now : Nat) (fails : List DbRow → Option String) :
    Except AppError (List DbRow) :=
  if tariffs.length = 0 then .ok store
  else
    match runChunks store (chunksOf (tariffs.map (withTimestamp · now))) fails with
    | .ok committed => .ok committed
    | .error msg =>
      .error (mkDatabaseError ("Failed to upsert tariffs: " ++ msg))

/-- The table visible after the call: the committed state on success,
the unchanged pre-transaction state after a rollback. -/
def storeAfter (store : List DbRow) (res : Except AppError (List DbRow)) :
    List DbRow :=
  match res with
  | .ok s => s
  | .error _ => store

/-! #### Sorted read-back (`getTariffsByDate`) -/

/-- Projection of the `select` column list (`TariffExportRow`). -/
structure TariffExportRow where
  warehouse_name : String
  geo_name : Option String
  box_delivery_coef : Option Int
  box_delivery_base : Option String
  box_delivery_liter : Option String
  box_storage_coef : Option Int
  box_storage_base : Option String
  box_storage_liter : Option String
deriving Repr, DecidableEq

def toExportRow (r : DbRow) : TariffExportRow :=
  { warehouse_name := r.warehouse_name
    geo_name := r.geo_name
    box_delivery_coef := r.box_delivery_coef
    box_delivery_base := r.box_delivery_base
    box_delivery_liter := r.box_delivery_liter
    box_storage_coef := r.box_storage_coef
    box_storage_base := r.box_storage_base
    box_storage_liter := r.box_storage_liter }

/-- Sort key for `ORDER BY box_delivery_coef ASC NULLS LAST,
warehouse_name ASC`: a null coefficient sorts after every non-null
one (`false < true` on `Bool`), then the coefficient value, then the
warehouse name, lexicographically. -/
def exportSortKey (r : TariffExportRow) : Lex (Lex (Bool × Int) × String) :=
  toLex (toLex (r.box_delivery_coef.isNone, r.box_delivery_coef.getD 0),
    r.warehouse_name)

def rowOrder (a b : TariffExportRow) : Prop :=
  exportSortKey a ≤ exportSortKey b

instance : DecidableRel rowOrder := fun a b =>
  inferInstanceAs (Decidable (exportSortKey a ≤ exportSortKey b))

instance : IsTotal TariffExportRow rowOrder :=
  ⟨fun a b => le_total (exportSortKey a) (exportSortKey b)⟩

instance : IsTrans TariffExportRow rowOrder :=
  ⟨fun _ _ _ hab hbc => le_trans hab hbc⟩

/-- `getTariffsByDate`: `WHERE date = ?`, project the export columns,
and sort by the order above (the embedding uses insertion sort as the
database sort algorithm). -/
def getTariffsByDate (store : List DbRow) (date : String) :
    List TariffExportRow :=
  List.insertionSort rowOrder
    ((store.filter (fun r => decide (r.date = date))).map toExportRow)

/-! ### GoogleSheetsService (`src/services/googleSheets.ts`) -/

/-- `updateSpreadsheet`: validates the id, then retries the internal
clear-and-write (abstracted as `att`, per attempt number) with the
same loop shape as the fetch; exhaustion throws a `GoogleSheetsError`
whose message carries the spreadsheet id and the attempt count. -/
def updateSpreadsheet (spreadsheetId : String) (maxRetries retryDelay : Nat)
    (att : Nat → Except AppError Unit) :
    Except AppError Unit × List Nat :=
  match validateSpreadsheetId spreadsheetId with
  | .error e => (.error e, [])
  | .ok _ =>
    match retryAttempts att maxRetries retryDelay with
    | (.ok _, ds) => (.ok (), ds)
    | (.error lastErr, ds) =>
      (.error (mkGoogleSheetsError
        ("Failed to update spreadsheet " ++ spreadsheetId ++ " after " ++
          toString maxRetries ++ " attempts: " ++ lastErrMsg lastErr)), ds)

/-- Aggregated counters logged by `updateAllSpreadsheets`. -/
structure PublishSummary where
  successCount : Nat
  failureCount : Nat
deriving Repr, DecidableEq

/-- `updateAllSpreadsheets`: reads the destination registry (`ids`),
returns immediately when it is empty, otherwise settles one
`updateSpreadsheet` per id (its settled outcome abstracted by
`outcome`), counts fulfilled and rejected results, and throws an
aggregate `GoogleSheetsError` only when every destination failed. -/
def updateAllSpreadsheets (ids : List String) (outcome : String → Bool) :
    Except AppError PublishSummary :=
  if ids.isEmpty then .ok ⟨0, 0⟩
  else
    let successCount := (ids.filter (fun i => outcome i)).length
    let failureCount := (ids.filter (fun i => !outcome i)).length
    if failureCount = ids.length then
      .error (mkGoogleSheetsError "All spreadsheet updates failed")
    else
      .ok ⟨successCount, failureCount⟩

/-! ### MetricsCollector (`src/utils/metrics.ts`) -/

/-- `SyncMetrics`. -/
structure SyncMetrics where
  startTime : Nat
  endTime : Option Nat
  duration : Option Nat
  fetchedCount : Nat
  savedCount : Nat
  exportedCount : Nat
  success : Bool
  error : Option String
deriving Repr, DecidableEq

def MAX_HISTORY : Nat := 100

/-- The metric object built at the top of `startSync`. -/
def newMetric (now : Nat) : SyncMetrics :=
  { startTime := now
    endTime := none
    duration := none
    fetchedCount := 0
    savedCount := 0
    exportedCount := 0
    success := false
    error := none }

/-- `startSync`: push the fresh metric, then `shift()` the oldest
entry if the history exceeds `maxHistory`.  Returns the new history
and the metric handle. -/
def startSync (metrics : List SyncMetrics) (now : Nat) :
    List SyncMetrics × SyncMetrics :=
  let m := newMetric now
  let pushed := metrics ++ [m]
  (if MAX_HISTORY < pushed.length then pushed.tail else pushed, m)

/-- `completeSync`: sets end time, duration, the success flag, and the
error message when one is supplied; it never touches the history. -/
def completeSync (m : SyncMetrics) (success : Bool) (error : Option String)
    (now : Nat) : SyncMetrics :=
  { m with
    endTime := some now
    duration := some (now - m.startTime)
    success := success
    error := error }

/-- `getRecentMetrics`: `slice(-count)`; `slice(-0)` is `slice(0)`,
the whole history. -/
def getRecentMetrics (metrics : List SyncMetrics) (count : Nat) :
    List SyncMetrics :=
  if count = 0 then metrics else metrics.drop (metrics.length - count)

/-- `getSuccessRate`: percentage of entries with `success = true`;
0 on an empty history. -/
def getSuccessRate (metrics : List SyncMetrics) : Rat :=
  if metrics.length = 0 then 0
  else ((metrics.filter (fun m => m.success)).length : Rat)
    / (metrics.length : Rat) * 100

/-- `getAverageDuration`: mean of the defined durations; 0 when none
is defined. -/
def getAverageDuration (metrics : List SyncMetrics) : Rat :=
  let completed := metrics.filter (fun m => m.duration.isSome)
  if completed.length = 0 then 0
  else ((completed.map (fun m => m.duration.getD 0)).sum : Rat)
    / (completed.length : Rat)

/-! ### TariffSyncService (`src/services/tariffSync.ts`) -/

/-- The collaborators and clocks one `syncTariffs` run depends on. -/
structure SyncDeps where
  today : String
  startTime : Nat
  endTime : Nat
  now : Nat
  maxRetries : Nat
  retryDelay : Nat
  fetchAttempt : Nat → Except AppError (List WBWarehouseTariff)
  dbFails : List DbRow → Option String
  destIds : List String
  destOutcome : String → Bool

/-- Observable outcome of one orchestrator run: the re-raised error or
normal return, the finalized metric, the visible tariff table, and
whether the export step was invoked at all. -/
structure SyncResult where
  result : Except AppError Unit
  metric : SyncMetrics
  store : List DbRow
  exportCalled : Bool
deriving Repr

/-- `syncTariffs`: fetch → (short-circuit on zero rows) → transform →
upsert → sorted read-back (with the consistency check) → export; the
`catch` block finalizes the metric with the partial counts achieved
so far and re-throws. -/
def syncTariffs (deps : SyncDeps) (store : List DbRow) : SyncResult :=
  let m0 := newMetric deps.startTime
  match (fetchBoxTariffs deps.today deps.maxRetries deps.retryDelay
      deps.fetchAttempt).1 with
  | .error e =>
    ⟨.error e, completeSync m0 false (some e.message) deps.endTime,
      store, false⟩
  | .ok rawTariffs =>
    let m1 := { m0 with fetchedCount := rawTariffs.length }
    if rawTariffs.length = 0 then
      ⟨.ok (), completeSync m1 true none deps.endTime, store, false⟩
    else
      match transformToDbFormat rawTariffs deps.today with
      | .error e =>
        ⟨.error e, completeSync m1 false (some e.message) deps.endTime,
          store, false⟩
      | .ok dbTariffs =>
        match upsertTariffs store dbTariffs deps.now deps.dbFails with
        | .error e =>
          ⟨.error e, completeSync m1 false (some e.message) deps.endTime,
            store, false⟩
        | .ok store1 =>
          let m2 := { m1 with savedCount := dbTariffs.length }
          let exportTariffs := getTariffsByDate store1 deps.today
          if exportTariffs.length = 0 then
            let e : AppError :=
              ⟨"No tariffs found in database after insert - data consistency issue",
                500⟩
            ⟨.error e, completeSync m2 false (some e.message) deps.endTime,
              store1, false⟩
          else
            match updateAllSpreadsheets deps.destIds deps.destOutcome with
            | .error e =>
              ⟨.error e, completeSync m2 false (some e.message) deps.endTime,
                store1, true⟩
            | .ok _ =>
              let m3 := { m2 with exportedCount := exportTariffs.length }
              ⟨.ok (), completeSync m3 true none deps.endTime, store1, true⟩

/-! ### SchedulerService (`src/services/scheduler.ts`)

Event-level model.  `tickFires` is the cron callback (it consults the
`syncInProgress` flag and either skips or invokes `runSync`);
`runNowCalled` is `runImmediateSync` (it invokes `runSync` with no
flag check); `runSettles b` is the `finally` of a `runSync` whose
orchestrator call resolved (`b = true`) or threw (`b = false`).
`runningCount` counts orchestrator invocations currently in flight;
`skippedCount` counts "Previous sync still in progress" log lines. -/

structure SchedState where
  syncInProgress : Bool
  runningCount : Nat
  skippedCount : Nat
deriving Repr, DecidableEq

inductive SchedEvent where
  | tickFires : SchedEvent
  | runNowCalled : SchedEvent
  | runSettles : Bool → SchedEvent
deriving Repr, DecidableEq

def schedStep (s : SchedState) : SchedEvent → SchedState
  | .tickFires =>
    if s.syncInProgress then
      { s with skippedCount := s.skippedCount + 1 }
    else
      { s with syncInProgress := true, runningCount := s.runningCount + 1 }
  | .runNowCalled =>
    { s with syncInProgress := true, runningCount := s.runningCount + 1 }
  | .runSettles _ =>
    { s with syncInProgress := false, runningCount := s.runningCount - 1 }

def schedInit : SchedState := ⟨false, 0, 0⟩

/-- States reachable from startup using only scheduled ticks and run
settlements (no `runImmediateSync`). -/
inductive TickReachable : SchedState → Prop
  | init : TickReachable schedInit
  | tick {s : SchedState} : TickReachable s →
      TickReachable (schedStep s .tickFires)
  | settle {s : SchedState} {b : Bool} : TickReachable s →
      TickReachable (schedStep s (.runSettles b))

/-! ## Shared demonstration inputs -/

/-- A raw entry whose every value field is the sentinel `"-"` and
whose optional region name is absent (empty string). -/
def demoEntry : WBWarehouseTariff :=
  { warehouseName := "A", geoName := "",
    boxDeliveryBase := "-", boxDeliveryLiter := "-",
    boxDeliveryCoefExpr := "-", boxDeliveryMarketplaceBase := "-",
    boxDeliveryMarketplaceLiter := "-", boxDeliveryMarketplaceCoefExpr := "-",
    boxStorageBase := "-", boxStorageLiter := "-", boxStorageCoefExpr := "-" }

/-- The normalization of `demoEntry` for 2026-02-03. -/
def demoNormalized : BoxTariff :=
  { date := "2026-02-03", warehouse_name := "A", geo_name := none,
    box_delivery_base := none, box_delivery_liter := none,
    box_delivery_coef := none, box_delivery_marketplace_base := none,
    box_delivery_marketplace_liter := none,
    box_delivery_marketplace_coef := none, box_storage_base := none,
    box_storage_liter := none, box_storage_coef := none }

/-! ## Claim C1 (scheduler mutual exclusion) -/

/-- C1 (counterexample): the claim says an invocation of `runNow`
arriving while the in-progress flag is set is skipped and never
executed concurrently.  In the code `runImmediateSync` calls `runSync`
without consulting `syncInProgress`: starting from the initial state,
a tick starts a run (flag set, one run in flight), and a `runNow`
arriving then starts a second concurrent run (`runningCount = 2`)
with no skip logged (`skippedCount = 0`). -/
theorem C1_runNow_not_skipped_counterexample :
    schedStep (schedStep schedInit .tickFires) .runNowCalled =
      { syncInProgress := true, runningCount := 2, skippedCount := 0 } := by
  decide

/-- C1 (amended): the in-progress flag is set when a run starts and
cleared when it settles, on success and on failure alike; a scheduled
tick arriving while the flag is set is skipped and only logged; but
`runImmediateSync` is unguarded — it always starts a run regardless of
the flag; under scheduled ticks and settlements alone, at most one run
is ever in flight, and the flag is set exactly while one is. -/
theorem C1_scheduler_flag_behavior :
    (∀ s : SchedState, s.syncInProgress = true →
      schedStep s .tickFires = { s with skippedCount := s.skippedCount + 1 }) ∧
    (∀ s : SchedState, s.syncInProgress = false →
      schedStep s .tickFires =
        { s with syncInProgress := true, runningCount := s.runningCount + 1 }) ∧
    (∀ (s : SchedState) (b : Bool),
      (schedStep s (.runSettles b)).syncInProgress = false) ∧
    (∀ s : SchedState,
      (schedStep s .runNowCalled).runningCount = s.runningCount + 1 ∧
      (schedStep s .runNowCalled).skippedCount = s.skippedCount) ∧
    (∀ s : SchedState, TickReachable s →
      s.runningCount ≤ 1 ∧ (s.syncInProgress = true ↔ s.runningCount = 1)) := by
  refine ⟨?_, ?_, ?_, ?_, ?_⟩
  · intro s h; simp [schedStep, h]
  · intro s h; simp [schedStep, h]
  · intro s b; simp [schedStep]
  · intro s; simp [schedStep]
  · intro s h
    induction h with
    | init => simp [schedInit]
    | @tick s1 hs ih =>
      obtain ⟨h1, h2⟩ := ih
      by_cases hp : s1.syncInProgress = true
      · simpa [schedStep, hp] using ⟨h1, h2.mp hp⟩
      · have hflag : s1.syncInProgress = false := by simpa using hp
        have hc : s1.runningCount = 0 := by
          rcases Nat.lt_or_ge s1.runningCount 1 with h | h
          · omega
          · exfalso
            have h3 := h2.mpr (by omega)
            simp [hflag] at h3
        simp [schedStep, hflag, hc]
    | @settle s1 b hs ih =>
      obtain ⟨h1, h2⟩ := ih
      refine ⟨by simp [schedStep]; omega, ?_⟩
      have h3 : s1.runningCount - 1 ≠ 1 := by
        rcases Nat.le_one_iff_eq_zero_or_eq_one.mp h1 with h | h <;> omega
      simp [schedStep, h3]

/-- C1 (amended, witness): the components applied at concrete states. -/
theorem C1_scheduler_flag_behavior_witness :
    schedStep ⟨true, 1, 0⟩ .tickFires = ⟨true, 1, 1⟩ ∧
    (schedStep ⟨true, 1, 5⟩ (.runSettles false)).syncInProgress = false ∧
    (schedStep schedInit .tickFires).runningCount ≤ 1 :=
  ⟨C1_scheduler_flag_behavior.1 ⟨true, 1, 0⟩ rfl,
   C1_scheduler_flag_behavior.2.2.1 ⟨true, 1, 5⟩ false,
   (C1_scheduler_flag_behavior.2.2.2.2 _
     (TickReachable.tick TickReachable.init)).1⟩

/-! ## Claim C2 (publishAll aggregation semantics) -/

/-- C2: for every snapshot, `updateAllSpreadsheets` over the
registered destinations settles every per-destination publish: with
zero destinations it is a successful no-op; if every destination
fails it raises the aggregate error; if at least one destination
succeeds the call returns successfully, only aggregating succeeded
and failed counts. -/
theorem C2_publishAll_aggregation :
    ∀ (ids : List String) (outcome : String → Bool),
      (ids = [] →
        updateAllSpreadsheets ids outcome = .ok ⟨0, 0⟩) ∧
      (ids ≠ [] → (∀ i ∈ ids, outcome i = false) →
        updateAllSpreadsheets ids outcome =
          .error (mkGoogleSheetsError "All spreadsheet updates failed")) ∧
      ((∃ i ∈ ids, outcome i = true) →
        updateAllSpreadsheets ids outcome =
          .ok ⟨(ids.filter (fun i => outcome i)).length,
               (ids.filter (fun i => !outcome i)).length⟩) := by
  intro ids outcome
  refine ⟨?_, ?_, ?_⟩
  · intro h; subst h; rfl
  · intro hne hall
    have hfilter : ids.filter (fun i => !outcome i) = ids :=
      List.filter_eq_self.mpr (fun a ha => by simp [hall a ha])
    have hempty : ids.isEmpty = false := by
      simpa [List.isEmpty_iff] using hne
    simp [updateAllSpreadsheets, hempty, hfilter]
  · intro hex
    have hlt : (ids.filter (fun i => !outcome i)).length < ids.length := by
      apply List.length_filter_lt_length_iff_exists.mpr
      obtain ⟨i, hi, hout⟩ := hex
      exact ⟨i, hi, by simp [hout]⟩
    have hempty : ids.isEmpty = false := by
      cases ids with
      | nil => obtain ⟨i, hi, _⟩ := hex; simp at hi
      | cons a l => rfl
    simp [updateAllSpreadsheets, hempty, Nat.ne_of_lt hlt]

/-- C2 (witness): zero destinations; two destinations that both fail;
three destinations of which exactly one fails (success count 2,
failure count 1). -/
theorem C2_publishAll_aggregation_witness :
    updateAllSpreadsheets [] (fun _ => true) = .ok ⟨0, 0⟩ ∧
    updateAllSpreadsheets ["a", "b"] (fun _ => false) =
      .error (mkGoogleSheetsError "All spreadsheet updates failed") ∧
    updateAllSpreadsheets ["a", "b", "c"] (fun i => !(i == "a")) =
      .ok ⟨2, 1⟩ := by
  refine ⟨(C2_publishAll_aggregation [] _).1 rfl,
    (C2_publishAll_aggregation ["a", "b"] _).2.1 (by decide) (by decide), ?_⟩
  have h := (C2_publishAll_aggregation ["a", "b", "c"]
    (fun i => !(i == "a"))).2.2 ⟨"b", by decide, by decide⟩
  rw [h]; decide

/-! ## Claim C4 (sentinel normalization) -/

/-- Helper: whenever `transformOne` produces a record, each value
field is the corresponding `parseValue` / `parseCoefficient` result. -/
theorem transformOne_ok_fields {t : WBWarehouseTariff} {date : String}
    {r : BoxTariff} (h : transformOne t date = .ok r) :
    r.date = date ∧
    r.box_delivery_base = parseValue t.boxDeliveryBase ∧
    r.box_delivery_liter = parseValue t.boxDeliveryLiter ∧
    r.box_delivery_coef = parseCoefficient t.boxDeliveryCoefExpr ∧
    r.box_delivery_marketplace_base = parseValue t.boxDeliveryMarketplaceBase ∧
    r.box_delivery_marketplace_liter = parseValue t.boxDeliveryMarketplaceLiter ∧
    r.box_delivery_marketplace_coef = parseCoefficient t.boxDeliveryMarketplaceCoefExpr ∧
    r.box_storage_base = parseValue t.boxStorageBase ∧
    r.box_storage_liter = parseValue t.boxStorageLiter ∧
    r.box_storage_coef = parseCoefficient t.boxStorageCoefExpr := by
  unfold transformOne at h
  cases hwn : validateAndTrim t.warehouseName "warehouseName"
      VALIDATION_MAX_WAREHOUSE_NAME_LENGTH with
  | error e => rw [hwn] at h; exact absurd h (by simp)
  | ok wn =>
    rw [hwn] at h
    cases hgeo : (if t.geoName ≠ "" then
        (validateAndTrim t.geoName "geoName"
          VALIDATION_MAX_GEO_NAME_LENGTH).map (fun p => some p.1)
      else
        .ok none : Except AppError (Option String)) with
    | error e => rw [hgeo] at h; exact absurd h (by simp)
    | ok geo =>
      rw [hgeo] at h
      cases h
      simp

/-- C4: the sentinel `"-"` and the empty value normalize to absent
(`none`) — never a parsed zero and never an empty string — on both
the coefficient parser and the string-value parser; a non-numeric
non-sentinel coefficient (a `parseInt` producing `NaN`) also yields
absent; and every value field of a produced record is exactly the
corresponding parser's output. -/
theorem C4_sentinels_map_to_absent :
    parseValue "" = none ∧ parseValue "-" = none ∧
    parseCoefficient "" = none ∧ parseCoefficient "-" = none ∧
    (∀ s : String, parseIntJS s = none → parseCoefficient s = none) ∧
    (∀ (t : WBWarehouseTariff) (date : String) (r : BoxTariff),
      transformOne t date = .ok r →
        r.box_delivery_coef = parseCoefficient t.boxDeliveryCoefExpr ∧
        r.box_delivery_marketplace_coef =
          parseCoefficient t.boxDeliveryMarketplaceCoefExpr ∧
        r.box_storage_coef = parseCoefficient t.boxStorageCoefExpr ∧
        r.box_delivery_base = parseValue t.boxDeliveryBase ∧
        r.box_delivery_liter = parseValue t.boxDeliveryLiter ∧
        r.box_delivery_marketplace_base =
          parseValue t.boxDeliveryMarketplaceBase ∧
        r.box_delivery_marketplace_liter =
          parseValue t.boxDeliveryMarketplaceLiter ∧
        r.box_storage_base = parseValue t.boxStorageBase ∧
        r.box_storage_liter = parseValue t.boxStorageLiter) := by
  refine ⟨rfl, rfl, rfl, rfl, ?_, ?_⟩
  · intro s hs
    unfold parseCoefficient
    by_cases h0 : s = "" ∨ s = "-"
    · rcases h0 with h | h <;> simp [h]
    · rw [if_neg (by simpa using h0), hs]
  · intro t date r h
    obtain ⟨-, h1, h2, h3, h4, h5, h6, h7, h8, h9⟩ := transformOne_ok_fields h
    exact ⟨h3, h6, h9, h1, h2, h4, h5, h7, h8⟩

/-- C4 (witness): the non-numeric coefficient `"abc"` yields absent,
and the all-sentinel demo entry normalizes with every value field
absent. -/
theorem C4_sentinels_map_to_absent_witness :
    parseCoefficient "abc" = none ∧
    demoNormalized.box_delivery_coef = parseCoefficient "-" := by
  refine ⟨C4_sentinels_map_to_absent.2.2.2.2.1 "abc" (by decide), ?_⟩
  exact (C4_sentinels_map_to_absent.2.2.2.2.2 demoEntry "2026-02-03"
    demoNormalized (by decide)).1

/-! ## Claim C10 (metrics recorder: in-flight runs) -/

/-- Helper: the history after `startSync` is the (possibly evicted)
old history with the fresh metric appended. -/
theorem startSync_decomp (ms : List SyncMetrics) (now : Nat) :
    (startSync ms now).1 =
      (if MAX_HISTORY < ms.length + 1 then ms.tail else ms) ++ [newMetric now] := by
  unfold startSync
  simp only [List.length_append, List.length_cons, List.length_nil]
  by_cases h : MAX_HISTORY < ms.length + 1
  · rw [if_pos h, if_pos (by simpa using h)]
    cases ms with
    | nil => simp [MAX_HISTORY] at h
    | cons a l => simp
  · rw [if_neg h, if_neg (by simpa using h)]

/-- C10: from the moment `startSync` is called the new run is present
in the history with `success = false` and no end time; `recent(n)`
(for `n ≥ 1`) includes the incomplete entry; the success rate counts
the in-flight run in the denominator but never in the numerator; and
eviction of the oldest entry beyond capacity happens at `startSync`
time (append without eviction below capacity, drop-oldest above). -/
theorem C10_startSync_inflight_entry :
    ∀ (ms : List SyncMetrics) (now : Nat),
      ((startSync ms now).2).success = false ∧
      ((startSync ms now).2).endTime = none ∧
      (ms.length + 1 ≤ MAX_HISTORY →
        (startSync ms now).1 = ms ++ [(startSync ms now).2]) ∧
      (MAX_HISTORY < ms.length + 1 →
        (startSync ms now).1 = ms.tail ++ [(startSync ms now).2]) ∧
      (∀ n, 1 ≤ n →
        (startSync ms now).2 ∈ getRecentMetrics (startSync ms now).1 n) ∧
      getSuccessRate (startSync ms now).1 =
        ((((startSync ms now).1.dropLast.filter
            (fun x => x.success)).length : Rat)
          / (((startSync ms now).1.length : Rat))) * 100 := by
  intro ms now
  have hm : (startSync ms now).2 = newMetric now := rfl
  have hd := startSync_decomp ms now
  refine ⟨rfl, rfl, ?_, ?_, ?_, ?_⟩
  · intro hle
    rw [hd, hm, if_neg (by omega)]
  · intro hlt
    rw [hd, hm, if_pos hlt]
  · intro n hn
    rw [hd, hm, getRecentMetrics, if_neg (by omega)]
    set pre := (if MAX_HISTORY < ms.length + 1 then ms.tail else ms) with hpre
    have hk : (pre ++ [newMetric now]).length - n ≤ pre.length := by
      simp only [List.length_append, List.length_cons, List.length_nil]
      omega
    rw [List.drop_append_of_le_length hk]
    simp
  · rw [hd, getSuccessRate]
    set pre := (if MAX_HISTORY < ms.length + 1 then ms.tail else ms) with hpre
    rw [if_neg (by simp), List.dropLast_concat, List.filter_append]
    simp [newMetric]

/-- C10 (witness): starting a sync on an empty history appends the
incomplete entry, which `recent(1)` reports. -/
theorem C10_startSync_inflight_entry_witness :
    ((startSync [] 5).2).success = false ∧
    (startSync [] 5).1 = [] ++ [(startSync [] 5).2] ∧
    (startSync [] 5).2 ∈ getRecentMetrics (startSync [] 5).1 1 :=
  ⟨(C10_startSync_inflight_entry [] 5).1,
   (C10_startSync_inflight_entry [] 5).2.2.1 (by decide),
   (C10_startSync_inflight_entry [] 5).2.2.2.2.1 1 (by decide)⟩

/-! ## Claim C5 (sorted read-back) -/

/-- The ordering contract stated by the `ORDER BY` clause: delivery
coefficient ascending, absent (`NULL`) coefficients after all present
ones, ties broken by warehouse name ascending. -/
def deliveryCoefOrder (a b : TariffExportRow) : Prop :=
  match a.box_delivery_coef, b.box_delivery_coef with
  | some x, some y => x < y ∨ (x = y ∧ a.warehouse_name ≤ b.warehouse_name)
  | some _, none => True
  | none, some _ => False
  | none, none => a.warehouse_name ≤ b.warehouse_name

/-- Helper: the lexicographic sort key realizes exactly the
`deliveryCoefOrder` contract. -/
theorem rowOrder_iff_deliveryCoefOrder (a b : TariffExportRow) :
    rowOrder a b ↔ deliveryCoefOrder a b := by
  unfold rowOrder exportSortKey deliveryCoefOrder
  cases ha : a.box_delivery_coef with
  | none =>
    cases hb : b.box_delivery_coef with
    | none => simp [Prod.Lex.le_iff, Prod.Lex.lt_iff]
    | some y => simp [Prod.Lex.le_iff, Prod.Lex.lt_iff]
  | some x =>
    cases hb : b.box_delivery_coef with
    | none => simp [Prod.Lex.le_iff, Prod.Lex.lt_iff]
    | some y => simp [Prod.Lex.le_iff, Prod.Lex.lt_iff, Prod.ext_iff]

/-- The two stored rows of the end-to-end example: warehouse `A` with
absent delivery coefficient, warehouse `B` with coefficient 3. -/
def demoRowA : DbRow :=
  { date := "2026-02-03", warehouse_name := "A", geo_name := none,
    box_delivery_base := none, box_delivery_liter := none,
    box_delivery_coef := none, box_delivery_marketplace_base := none,
    box_delivery_marketplace_liter := none,
    box_delivery_marketplace_coef := none, box_storage_base := none,
    box_storage_liter := none, box_storage_coef := none, updated_at := 1 }

def demoRowB : DbRow :=
  { demoRowA with warehouse_name := "B", box_delivery_coef := some 3 }

/-- C5: `getTariffsByDate` returns exactly the stored records of the
requested date (as a permutation of their projection), ordered by
delivery coefficient ascending with absent coefficients last and ties
broken by warehouse name; in particular for stored entities B with
coefficient 3 and A with coefficient absent the result is [B, A]. -/
theorem C5_readSorted_contract :
    (∀ (store : List DbRow) (date : String),
      List.Pairwise deliveryCoefOrder (getTariffsByDate store date) ∧
      (getTariffsByDate store date).Perm
        ((store.filter (fun r => decide (r.date = date))).map toExportRow)) ∧
    getTariffsByDate [demoRowA, demoRowB] "2026-02-03" =
      [toExportRow demoRowB, toExportRow demoRowA] := by
  refine ⟨fun store date => ⟨?_, ?_⟩, by decide⟩
  · have hs := List.sorted_insertionSort rowOrder
      ((store.filter (fun r => decide (r.date = date))).map toExportRow)
    exact (List.Pairwise.imp
      (fun h => (rowOrder_iff_deliveryCoefOrder _ _).mp h) hs)
  · exact List.perm_insertionSort rowOrder _

/-! ## Claim C7 (retry with linear backoff on fetch and publish) -/

/-- Helper: when every attempt fails, the retry loop runs all
remaining attempts, sleeps `retryDelay * attemptNumber` between
consecutive attempts, and surfaces the last attempt's error. -/
theorem retryGo_all_fail {α : Type} (att : Nat → Except AppError α) (d : Nat)
    (errAt : Nat → AppError) (hatt : ∀ n, att n = .error (errAt n)) :
    ∀ (r a : Nat) (le : Option AppError) (acc : List Nat), 1 ≤ r →
      retryGo att d r a le acc =
        (.error (some (errAt (a + r - 1))),
         acc.reverse ++ (List.range' a (r - 1)).map (fun k => d * k)) := by
  intro r
  induction r with
  | zero => intro a le acc h; exact absurd h (by omega)
  | succ r ih =>
    intro a le acc h1
    rw [retryGo, hatt a]
    by_cases hr : r = 0
    · subst hr
      simp [List.range']
    · simp only [if_neg hr]
      rw [ih (a + 1) (some (errAt a)) (d * a :: acc) (by omega)]
      have h2 : a + 1 + r - 1 = a + (r + 1) - 1 := by omega
      have h3 : List.range' a (r + 1 - 1) =
          a :: List.range' (a + 1) (r - 1) := by
        obtain ⟨k, hk⟩ := Nat.exists_eq_succ_of_ne_zero hr
        subst hk
        simp [List.range'_succ]
      rw [h2, h3]
      simp

/-- C7: the fetch and the per-destination publish share the same
fixed maximum attempt count (both constants are 3); in each, after a
failed attempt `n < max` the loop waits `retryDelay * n` (linear
backoff, delays `d*1, d*2, ..., d*(max-1)`); and after exhausting all
attempts the operation fails with an error wrapping the last
underlying error's message — for the fetch a `WBApiError` carrying
status code 503 and the attempt count, for the publish a
`GoogleSheetsError` carrying the destination id and the attempt
count. -/
theorem C7_retry_linear_backoff :
    API_CONFIG_MAX_RETRIES = SHEETS_CONFIG_MAX_RETRIES ∧
    (∀ (date : String) (max d : Nat)
        (att : Nat → Except AppError (List WBWarehouseTariff))
        (errAt : Nat → AppError),
      validateDate date = .ok () → 1 ≤ max →
      (∀ n, att n = .error (errAt n)) →
      fetchBoxTariffs date max d att =
        (.error (mkWBApiError
          ("Failed to fetch tariffs after " ++ toString max ++
            " attempts: " ++ (errAt max).message) 503),
         (List.range' 1 (max - 1)).map (fun k => d * k))) ∧
    (∀ (sid : String) (max d : Nat) (att : Nat → Except AppError Unit)
        (errAt : Nat → AppError),
      validateSpreadsheetId sid = .ok () → 1 ≤ max →
      (∀ n, att n = .error (errAt n)) →
      updateSpreadsheet sid max d att =
        (.error (mkGoogleSheetsError
          ("Failed to update spreadsheet " ++ sid ++ " after " ++
            toString max ++ " attempts: " ++ (errAt max).message)),
         (List.range' 1 (max - 1)).map (fun k => d * k))) := by
  refine ⟨rfl, ?_, ?_⟩
  · intro date max d att errAt hdate hmax hatt
    unfold fetchBoxTariffs
    rw [hdate]
    unfold retryAttempts
    rw [retryGo_all_fail att d errAt hatt max 1 none [] hmax]
    have h1 : 1 + max - 1 = max := by omega
    rw [h1]
    simp [lastErrMsg]
  · intro sid max d att errAt hsid hmax hatt
    unfold updateSpreadsheet
    rw [hsid]
    unfold retryAttempts
    rw [retryGo_all_fail att d errAt hatt max 1 none [] hmax]
    have h1 : 1 + max - 1 = max := by omega
    rw [h1]
    simp [lastErrMsg]

/-- C7 (witness): with the configured attempt count 3 and base delays
1000 / 2000, an always-failing fetch sleeps [1000, 2000] and fails
with the wrapped message and status 503; an always-failing publish
sleeps [2000, 4000] and fails with the id and attempt count in the
message. -/
theorem C7_retry_linear_backoff_witness :
    fetchBoxTariffs "2026-02-03" 3 1000
        (fun _ => .error ⟨"HTTP 500: boom", 500⟩) =
      (.error (mkWBApiError
        "Failed to fetch tariffs after 3 attempts: HTTP 500: boom" 503),
       [1000, 2000]) ∧
    updateSpreadsheet "aaaaaaaaaaaaaaaaaaaa" 3 2000
        (fun _ => .error ⟨"quota exceeded", 429⟩) =
      (.error (mkGoogleSheetsError
        "Failed to update spreadsheet aaaaaaaaaaaaaaaaaaaa after 3 attempts: quota exceeded"),
       [2000, 4000]) := by
  constructor
  · have h := C7_retry_linear_backoff.2.1 "2026-02-03" 3 1000
      (fun _ => .error ⟨"HTTP 500: boom", 500⟩)
      (fun _ => ⟨"HTTP 500: boom", 500⟩) (by decide) (by omega) (fun n => rfl)
    rw [h]
    decide
  · have h := C7_retry_linear_backoff.2.2 "aaaaaaaaaaaaaaaaaaaa" 3 2000
      (fun _ => .error ⟨"quota exceeded", 429⟩)
      (fun _ => ⟨"quota exceeded", 429⟩) (by decide) (by omega) (fun n => rfl)
    rw [h]
    decide

/-! ## Claim C3 (upsert: empty no-op, chunked all-or-nothing) -/

/-- Helper: the 500-row chunks concatenate back to the original
batch, so chunking never drops, duplicates or reorders rows. -/
theorem chunksOfAux_flatten {α : Type} :
    ∀ (fuel : Nat) (l : List α), l.length ≤ fuel →
      (chunksOfAux fuel l).flatten = l := by
  intro fuel
  induction fuel with
  | zero =>
    intro l h
    have h2 : l = [] := List.length_eq_zero.mp (Nat.le_zero.mp h)
    subst h2
    rfl
  | succ fuel ih =>
    intro l h
    cases l with
    | nil => rfl
    | cons x xs =>
      rw [chunksOfAux]
      rw [List.flatten_cons]
      rw [ih ((x :: xs).drop DB_CHUNK_SIZE) (by
        rw [List.length_drop]
        simp only [List.length_cons] at h ⊢
        simp only [DB_CHUNK_SIZE]
        omega)]
      exact List.take_append_drop _ _

theorem chunksOf_flatten {α : Type} (l : List α) : (chunksOf l).flatten = l :=
  chunksOfAux_flatten l.length l (Nat.le_refl _)

/-- Helper: when no chunk statement fails, the transaction loop
commits the fold of all chunks. -/
theorem runChunks_no_fail (store : List DbRow)
    (chunks : List (List DbRow)) (fails : List DbRow → Option String)
    (h : ∀ c ∈ chunks, fails c = none) :
    runChunks store chunks fails = .ok (chunks.foldl applyChunk store) := by
  induction chunks generalizing store with
  | nil => rfl
  | cons c rest ih =>
    rw [runChunks, h c (by simp)]
    rw [ih (applyChunk store c) (fun d hd => h d (by simp [hd]))]
    rfl

/-- Helper: chunk-by-chunk application equals plain row-by-row
application of the concatenated rows. -/
theorem foldl_applyChunk_flatten (store : List DbRow)
    (chunks : List (List DbRow)) :
    chunks.foldl applyChunk store = chunks.flatten.foldl upsertRow store := by
  induction chunks generalizing store with
  | nil => rfl
  | cons c rest ih =>
    rw [List.foldl_cons, List.flatten_cons, List.foldl_append, ih]
    rfl

/-- Helper: if some chunk statement fails, the transaction loop
throws. -/
theorem runChunks_some_fail (store : List DbRow)
    (chunks : List (List DbRow)) (fails : List DbRow → Option String)
    (h : ∃ c ∈ chunks, (fails c).isSome) :
    ∃ msg, runChunks store chunks fails = .error msg := by
  induction chunks generalizing store with
  | nil => obtain ⟨c, hc, -⟩ := h; simp at hc
  | cons c rest ih =>
    rw [runChunks]
    cases hf : fails c with
    | some msg => exact ⟨msg, rfl⟩
    | none =>
      obtain ⟨d, hd, hds⟩ := h
      rcases List.mem_cons.mp hd with rfl | hd2
      · rw [hf] at hds; simp at hds
      · exact ih (applyChunk store c) ⟨d, hd2, hds⟩

/-- C3: `upsertTariffs` on an empty batch is a no-op that succeeds
and leaves the store unchanged; on any batch whose chunk statements
all succeed the committed store is the plain row-by-row upsert of the
whole batch (chunking at 500 rows is invisible); and if any chunk
statement fails the call returns a wrapped `DatabaseError` and the
visible store is the unchanged pre-transaction store (rollback, no
partial set of records). -/
theorem C3_upsert_empty_noop_and_atomic :
    (∀ (store : List DbRow) (now : Nat) (fails : List DbRow → Option String),
      upsertTariffs store [] now fails = .ok store) ∧
    (∀ (store : List DbRow) (tariffs : List BoxTariff) (now : Nat)
        (fails : List DbRow → Option String),
      (∀ c ∈ chunksOf (tariffs.map (withTimestamp · now)), fails c = none) →
      upsertTariffs store tariffs now fails =
        .ok ((tariffs.map (withTimestamp · now)).foldl upsertRow store)) ∧
    (∀ (store : List DbRow) (tariffs : List BoxTariff) (now : Nat)
        (fails : List DbRow → Option String),
      (∃ c ∈ chunksOf (tariffs.map (withTimestamp · now)), (fails c).isSome) →
      (∃ msg, upsertTariffs store tariffs now fails =
          .error (mkDatabaseError ("Failed to upsert tariffs: " ++ msg))) ∧
        storeAfter store (upsertTariffs store tariffs now fails) = store) := by
  refine ⟨fun store now fails => rfl, ?_, ?_⟩
  · intro store tariffs now fails h
    by_cases h0 : tariffs = []
    · subst h0; rfl
    · unfold upsertTariffs
      rw [if_neg (by simpa using h0)]
      rw [runChunks_no_fail _ _ _ h, foldl_applyChunk_flatten, chunksOf_flatten]
  · intro store tariffs now fails hex
    have h0 : tariffs ≠ [] := by
      intro h0
      subst h0
      obtain ⟨c, hc, -⟩ := hex
      simp [chunksOf, chunksOfAux] at hc
    obtain ⟨msg, hmsg⟩ := runChunks_some_fail store _ fails hex
    have hval : upsertTariffs store tariffs now fails =
        .error (mkDatabaseError ("Failed to upsert tariffs: " ++ msg)) := by
      unfold upsertTariffs
      rw [if_neg (by simpa using h0), hmsg]
    exact ⟨⟨msg, hval⟩, by rw [hval]; rfl⟩

/-- C3 (witness): the empty no-op; a successful single-record upsert;
and a failing statement rolling back to the empty store with the
wrapped error. -/
theorem C3_upsert_empty_noop_and_atomic_witness :
    upsertTariffs [] [] 7 (fun _ => none) = .ok [] ∧
    upsertTariffs [] [demoNormalized] 7 (fun _ => none) =
      .ok [withTimestamp demoNormalized 7] ∧
    ((∃ msg, upsertTariffs [] [demoNormalized] 7 (fun _ => some "boom") =
        .error (mkDatabaseError ("Failed to upsert tariffs: " ++ msg))) ∧
      storeAfter []
        (upsertTariffs [] [demoNormalized] 7 (fun _ => some "boom")) = []) := by
  refine ⟨C3_upsert_empty_noop_and_atomic.1 [] 7 _, ?_, ?_⟩
  · have h := C3_upsert_empty_noop_and_atomic.2.1 [] [demoNormalized] 7
      (fun _ => none) (fun c hc => rfl)
    rw [h]
    decide
  · exact C3_upsert_empty_noop_and_atomic.2.2 [] [demoNormalized] 7
      (fun _ => some "boom") (by decide)

/-! ## Claim C6 (whole-row last-writer-wins upsert) -/

/-- The database unique constraint on (date, warehouse_name): no two
stored rows share the key. -/
def keysUnique (store : List DbRow) : Prop :=
  store.Pairwise (fun a b => rowKey a ≠ rowKey b)

/-- Helper: replacing the (unique) key-matching row leaves exactly
the incoming row under that key. -/
theorem filter_key_map_replace (r : DbRow) :
    ∀ (store : List DbRow), store.Pairwise (fun a b => rowKey a ≠ rowKey b) →
      store.any (fun q => decide (rowKey q = rowKey r)) = true →
      (store.map (fun q => if rowKey q = rowKey r then r else q)).filter
        (fun q => decide (rowKey q = rowKey r)) = [r] := by
  intro store
  induction store with
  | nil => intro _ h; simp at h
  | cons q qs ih =>
    intro hU hany
    rw [List.map_cons]
    by_cases hq : rowKey q = rowKey r
    · rw [if_pos hq, List.filter_cons]
      have hrest : ∀ p ∈ qs, rowKey q ≠ rowKey p := (List.pairwise_cons.mp hU).1
      have hnil : (qs.map (fun p => if rowKey p = rowKey r then r else p)).filter
          (fun p => decide (rowKey p = rowKey r)) = [] := by
        rw [List.filter_eq_nil_iff]
        intro b hb
        obtain ⟨p, hp, rfl⟩ := List.mem_map.mp hb
        have hne : rowKey p ≠ rowKey r := fun he =>
          (hrest p hp) (hq.trans he.symm)
        rw [if_neg hne]
        simpa using hne
      simp [hnil]
    · rw [if_neg hq, List.filter_cons]
      have hfq : decide (rowKey q = rowKey r) = false := by simpa using hq
      rw [hfq]
      simp only [Bool.false_eq_true, if_false]
      have hany2 : qs.any (fun p => decide (rowKey p = rowKey r)) = true := by
        rcases List.any_eq_true.mp hany with ⟨p, hp, hps⟩
        rcases List.mem_cons.mp hp with rfl | hp2
        · rw [hfq] at hps; exact absurd hps (by simp)
        · exact List.any_eq_true.mpr ⟨p, hp2, hps⟩
      exact ih (List.pairwise_cons.mp hU).2 hany2

/-- Helper: after a per-row upsert, exactly one stored row carries
the incoming key, and it is the incoming row. -/
theorem upsertRow_filter_key (store : List DbRow) (r : DbRow)
    (hU : keysUnique store) :
    (upsertRow store r).filter (fun q => decide (rowKey q = rowKey r)) = [r] := by
  unfold upsertRow
  by_cases hany : store.any (fun q => decide (rowKey q = rowKey r)) = true
  · rw [if_pos hany]
    exact filter_key_map_replace r store hU hany
  · rw [if_neg hany, List.filter_append]
    have h1 : store.filter (fun q => decide (rowKey q = rowKey r)) = [] := by
      rw [List.filter_eq_nil_iff]
      intro q hq hdec
      exact hany (List.any_eq_true.mpr ⟨q, hq, hdec⟩)
    simp [h1]

/-- Helper: the per-row upsert preserves key uniqueness. -/
theorem upsertRow_keysUnique (store : List DbRow) (r : DbRow)
    (hU : keysUnique store) : keysUnique (upsertRow store r) := by
  unfold upsertRow
  by_cases hany : store.any (fun q => decide (rowKey q = rowKey r)) = true
  · rw [if_pos hany]
    refine hU.map _ (fun a b hab => ?_)
    by_cases ha : rowKey a = rowKey r <;> by_cases hb : rowKey b = rowKey r
    · exact absurd (ha.trans hb.symm) hab
    · rw [if_pos ha, if_neg hb]
      exact fun he => hb (he.symm)
    · rw [if_neg ha, if_pos hb]
      exact fun he => ha he
    · rw [if_neg ha, if_neg hb]
      exact hab
  · rw [if_neg hany]
    refine List.pairwise_append.mpr ⟨hU, by simp, ?_⟩
    intro a ha b hb
    have hb2 : b = r := by simpa using hb
    subst hb2
    intro he
    exact hany (List.any_eq_true.mpr ⟨a, ha, by simpa using he⟩)

/-- Helper: a failure-free single-record upsert commits exactly the
per-row upsert of that record. -/
theorem upsertTariffs_singleton (store : List DbRow) (t : BoxTariff) (n : Nat) :
    upsertTariffs store [t] n (fun _ => none) =
      .ok (upsertRow store (withTimestamp t n)) := by
  unfold upsertTariffs
  rw [if_neg (by simp)]
  rw [runChunks_no_fail _ _ _ (fun c hc => rfl)]
  rw [foldl_applyChunk_flatten, chunksOf_flatten]
  rfl

/-- C6: on a key-unique store, upserting a record and then a second
record with the same (date, warehouse_name) key leaves exactly one
stored row under that key, and that row is the second record whole —
every non-key field (including ones the second record leaves absent)
takes the second call's value, with the second call's timestamp; key
uniqueness is preserved, so no duplicate rows ever appear. -/
theorem C6_upsert_last_writer_wins :
    ∀ (store : List DbRow) (r1 r2 : BoxTariff) (n1 n2 : Nat),
      keysUnique store → tariffKey r1 = tariffKey r2 →
      ∃ s1 s2,
        upsertTariffs store [r1] n1 (fun _ => none) = .ok s1 ∧
        upsertTariffs s1 [r2] n2 (fun _ => none) = .ok s2 ∧
        s2.filter (fun q => decide (rowKey q = tariffKey r2)) =
          [withTimestamp r2 n2] ∧
        keysUnique s2 := by
  intro store r1 r2 n1 n2 hU hkey
  refine ⟨upsertRow store (withTimestamp r1 n1),
    upsertRow (upsertRow store (withTimestamp r1 n1)) (withTimestamp r2 n2),
    upsertTariffs_singleton store r1 n1,
    upsertTariffs_singleton _ r2 n2, ?_, ?_⟩
  · exact upsertRow_filter_key _ (withTimestamp r2 n2)
      (upsertRow_keysUnique store (withTimestamp r1 n1) hU)
  · exact upsertRow_keysUnique _ _ (upsertRow_keysUnique _ _ hU)

/-- First-run version of the demo record: region present, delivery
coefficient 5.  The second run (`demoNormalized`) has both absent. -/
def demoTariffV1 : BoxTariff :=
  { demoNormalized with geo_name := some "Moscow", box_delivery_coef := some 5 }

/-- C6 (witness): writing V1 then the all-absent second version on an
empty store leaves exactly one row, whose region and coefficient are
overwritten to absent (no per-field merge). -/
theorem C6_upsert_last_writer_wins_witness :
    ∃ s1 s2,
      upsertTariffs [] [demoTariffV1] 1 (fun _ => none) = .ok s1 ∧
      upsertTariffs s1 [demoNormalized] 2 (fun _ => none) = .ok s2 ∧
      s2.filter (fun q => decide (rowKey q = tariffKey demoNormalized)) =
        [withTimestamp demoNormalized 2] ∧
      keysUnique s2 :=
  C6_upsert_last_writer_wins [] demoTariffV1 demoNormalized 1 2
    List.Pairwise.nil (by decide)

/-! ## Claim C9 (over-long entity names) -/

/-- The record `transformOne` produces when both name fields pass
validation: names trimmed and truncated to their limits, value fields
parsed. -/
def expectedTransform (t : WBWarehouseTariff) (date : String) : BoxTariff :=
  { date := date
    warehouse_name :=
      if VALIDATION_MAX_WAREHOUSE_NAME_LENGTH <
          (jsTrim t.warehouseName).length then
        jsSubstringTo (jsTrim t.warehouseName)
          VALIDATION_MAX_WAREHOUSE_NAME_LENGTH
      else jsTrim t.warehouseName
    geo_name :=
      if t.geoName = "" then none
      else some (if VALIDATION_MAX_GEO_NAME_LENGTH <
          (jsTrim t.geoName).length then
        jsSubstringTo (jsTrim t.geoName) VALIDATION_MAX_GEO_NAME_LENGTH
      else jsTrim t.geoName)
    box_delivery_base := parseValue t.boxDeliveryBase
    box_delivery_liter := parseValue t.boxDeliveryLiter
    box_delivery_coef := parseCoefficient t.boxDeliveryCoefExpr
    box_delivery_marketplace_base := parseValue t.boxDeliveryMarketplaceBase
    box_delivery_marketplace_liter := parseValue t.boxDeliveryMarketplaceLiter
    box_delivery_marketplace_coef :=
      parseCoefficient t.boxDeliveryMarketplaceCoefExpr
    box_storage_base := parseValue t.boxStorageBase
    box_storage_liter := parseValue t.boxStorageLiter
    box_storage_coef := parseCoefficient t.boxStorageCoefExpr }

/-- Helper: on a string that is non-empty after trimming,
`validateAndTrim` succeeds, truncating (with the warning flag) iff
the trimmed string exceeds the limit. -/
theorem validateAndTrim_ok_of_trim_ne {v fn : String} {maxLen : Nat}
    (hw : jsTrim v ≠ "") :
    validateAndTrim v fn maxLen =
      .ok (if maxLen < (jsTrim v).length then
          (jsSubstringTo (jsTrim v) maxLen, true)
        else (jsTrim v, false)) := by
  have hv : v ≠ "" := fun h => hw (by rw [h]; rfl)
  have hlen : (jsTrim v).length ≠ 0 := by
    intro h
    apply hw
    cases hd : (jsTrim v).data with
    | nil => exact String.ext (by simp [hd])
    | cons c cs =>
      rw [String.length, hd] at h
      simp at h
  unfold validateAndTrim
  rw [if_neg hv, if_neg hlen]
  by_cases hgt : maxLen < (jsTrim v).length
  · rw [if_pos (by omega), if_pos hgt]
  · rw [if_neg (by omega), if_neg hgt]

/-- Helper: an entry whose warehouse name is non-empty after trimming
(and whose region name is absent or non-empty after trimming) always
normalizes, to `expectedTransform`. -/
theorem transformOne_ok_of_names {t : WBWarehouseTariff} (date : String)
    (hw : jsTrim t.warehouseName ≠ "")
    (hg : t.geoName = "" ∨ jsTrim t.geoName ≠ "") :
    transformOne t date = .ok (expectedTransform t date) := by
  unfold transformOne expectedTransform
  rw [validateAndTrim_ok_of_trim_ne hw]
  rcases hg with hg | hg
  · by_cases hgt : VALIDATION_MAX_WAREHOUSE_NAME_LENGTH <
        (jsTrim t.warehouseName).length <;>
      simp [hg, hgt]
  · have hge : t.geoName ≠ "" := fun h => hg (by rw [h]; rfl)
    simp only [hge, ne_eq, not_false_eq_true, if_true, if_neg hge,
      validateAndTrim_ok_of_trim_ne hg, Except.map]
    by_cases hgt : VALIDATION_MAX_WAREHOUSE_NAME_LENGTH <
        (jsTrim t.warehouseName).length <;>
      by_cases hg2 : VALIDATION_MAX_GEO_NAME_LENGTH <
        (jsTrim t.geoName).length <;>
      simp [hge, hgt, hg2]

/-- Helper: a batch whose entries all have usable names normalizes in
full, the warehouse name of each output row being the trimmed,
limit-truncated input name. -/
theorem transformToDbFormat_ok_of_names :
    ∀ (ts : List WBWarehouseTariff) (date : String),
      (∀ t ∈ ts, jsTrim t.warehouseName ≠ "" ∧
        (t.geoName = "" ∨ jsTrim t.geoName ≠ "")) →
      ∃ out, transformToDbFormat ts date = .ok out ∧
        List.Forall₂ (fun t r => r.warehouse_name =
          (if VALIDATION_MAX_WAREHOUSE_NAME_LENGTH <
              (jsTrim t.warehouseName).length then
            jsSubstringTo (jsTrim t.warehouseName)
              VALIDATION_MAX_WAREHOUSE_NAME_LENGTH
          else jsTrim t.warehouseName)) ts out := by
  intro ts date h
  induction ts with
  | nil => exact ⟨[], rfl, List.Forall₂.nil⟩
  | cons t rest ih =>
    obtain ⟨out, hout, hfa⟩ := ih (fun p hp => h p (by simp [hp]))
    have h1 := transformOne_ok_of_names date
      (h t (by simp)).1 (h t (by simp)).2
    refine ⟨expectedTransform t date :: out, ?_, ?_⟩
    · unfold transformToDbFormat at hout ⊢
      rw [List.mapM_cons, h1, hout]
      rfl
    · exact List.Forall₂.cons rfl hfa

/-- C9 (counterexample): the claim says a problematic entity name
alone never fails the whole normalization batch; but a whitespace-only
warehouse name throws a `ValidationError` that `transformToDbFormat`
re-throws, failing the entire batch. -/
theorem C9_whitespace_name_fails_batch_counterexample :
    transformToDbFormat [{ demoEntry with warehouseName := " " }]
        "2026-02-03" =
      .error (mkValidationError
        "warehouseName cannot be empty or whitespace only") := by
  decide

/-- C9 (amended): an entity name that is non-empty after trimming but
exceeds the length limit is truncated to the limit with a warning and
still produces a record, and a batch whose names are all non-empty
after trimming (with region names absent or non-empty after trimming)
never fails on name length alone; an empty or whitespace-only name,
however, raises a validation error that fails the whole batch. -/
theorem C9_overlong_names_truncated :
    (∀ (s fn : String) (maxLen : Nat),
      jsTrim s ≠ "" → maxLen < (jsTrim s).length →
      validateAndTrim s fn maxLen =
        .ok (jsSubstringTo (jsTrim s) maxLen, true)) ∧
    (∀ (ts : List WBWarehouseTariff) (date : String),
      (∀ t ∈ ts, jsTrim t.warehouseName ≠ "" ∧
        (t.geoName = "" ∨ jsTrim t.geoName ≠ "")) →
      ∃ out, transformToDbFormat ts date = .ok out ∧
        List.Forall₂ (fun t r => r.warehouse_name =
          (if VALIDATION_MAX_WAREHOUSE_NAME_LENGTH <
              (jsTrim t.warehouseName).length then
            jsSubstringTo (jsTrim t.warehouseName)
              VALIDATION_MAX_WAREHOUSE_NAME_LENGTH
          else jsTrim t.warehouseName)) ts out) := by
  constructor
  · intro s fn maxLen hne hlt
    rw [validateAndTrim_ok_of_trim_ne hne, if_pos hlt]
  · exact transformToDbFormat_ok_of_names

/-- A 256-character warehouse name (one over the 255 limit). -/
def demoLongName : String := ⟨List.replicate 256 'a'⟩

set_option maxRecDepth 4096 in
/-- C9 (amended, witness): the over-long name is truncated with the
warning flag, and a batch containing it still normalizes in full. -/
theorem C9_overlong_names_truncated_witness :
    validateAndTrim demoLongName "warehouseName"
        VALIDATION_MAX_WAREHOUSE_NAME_LENGTH =
      .ok (jsSubstringTo (jsTrim demoLongName)
        VALIDATION_MAX_WAREHOUSE_NAME_LENGTH, true) ∧
    (∃ out, transformToDbFormat
        [{ demoEntry with warehouseName := demoLongName }] "2026-02-03" =
          .ok out ∧
      List.Forall₂ (fun t r => r.warehouse_name =
        (if VALIDATION_MAX_WAREHOUSE_NAME_LENGTH <
            (jsTrim t.warehouseName).length then
          jsSubstringTo (jsTrim t.warehouseName)
            VALIDATION_MAX_WAREHOUSE_NAME_LENGTH
        else jsTrim t.warehouseName))
        [{ demoEntry with warehouseName := demoLongName }] out) :=
  ⟨C9_overlong_names_truncated.1 demoLongName "warehouseName"
      VALIDATION_MAX_WAREHOUSE_NAME_LENGTH (by decide) (by decide),
   C9_overlong_names_truncated.2
     [{ demoEntry with warehouseName := demoLongName }] "2026-02-03"
     (by decide)⟩

/-! ## Claim C8 (zero-fetch short-circuit) -/

/-- C8: when the fetch step returns zero entries, the orchestrator
run short-circuits straight to successful completion: it returns
normally (no error raised), the recorded metric has fetched = 0,
saved = 0, exported = 0, success = true with the end time set, the
tariff store is untouched, and the export step is never invoked. -/
theorem C8_zero_fetch_short_circuit :
    ∀ (deps : SyncDeps) (store : List DbRow),
      validateDate deps.today = .ok () → 1 ≤ deps.maxRetries →
      deps.fetchAttempt 1 = .ok [] →
      syncTariffs deps store =
        { result := .ok ()
          metric :=
            { startTime := deps.startTime
              endTime := some deps.endTime
              duration := some (deps.endTime - deps.startTime)
              fetchedCount := 0
              savedCount := 0
              exportedCount := 0
              success := true
              error := none }
          store := store
          exportCalled := false } := by
  intro deps store hdate hmax hatt
  have hfetch : (fetchBoxTariffs deps.today deps.maxRetries deps.retryDelay
      deps.fetchAttempt).1 = .ok [] := by
    unfold fetchBoxTariffs
    rw [hdate]
    obtain ⟨r, hr⟩ := Nat.exists_eq_succ_of_ne_zero
      (by omega : deps.maxRetries ≠ 0)
    unfold retryAttempts
    rw [hr, retryGo, hatt]
  unfold syncTariffs
  rw [hfetch]
  simp [newMetric, completeSync]

/-- Collaborator bundle for the end-to-end zero-entry run: a valid
date, a fetch whose first attempt succeeds with zero entries. -/
def demoDeps : SyncDeps :=
  { today := "2026-02-03", startTime := 10, endTime := 25, now := 11,
    maxRetries := 3, retryDelay := 1000,
    fetchAttempt := fun _ => .ok [],
    dbFails := fun _ => none,
    destIds := [], destOutcome := fun _ => true }

/-- C8 (witness): the concrete zero-entry run completes successfully
with all counts 0 and no storage write or export. -/
theorem C8_zero_fetch_short_circuit_witness :
    syncTariffs demoDeps [] =
      { result := .ok ()
        metric :=
          { startTime := 10, endTime := some 25, duration := some 15,
            fetchedCount := 0, savedCount := 0, exportedCount := 0,
            success := true, error := none }
        store := []
        exportCalled := false } :=
  C8_zero_fetch_short_circuit demoDeps [] (by decide) (by decide) rfl
